import Mathlib

/-
Verification of the static-content brainstorm workflow.

Shallow embedding of `main.py` (the six-agent LangGraph workflow) and of the
relevant parts of `streamlit_app.py` (form handling, graph invocation and
message assembly).  The six message channels of the workflow state are plain
last-value channels (the `Annotated[..., "messages"]` annotation carries no
reducer), so a task's returned dict overwrites exactly the keys it mentions.
-/

namespace StaticContent

/-- One chat message, mirroring the `{"role": ..., "content": ...}` dicts built
by the agents in `main.py` and the `Message` TypedDict in `streamlit_app.py`. -/
structure Msg where
  role : String
  content : String
deriving DecidableEq

/-- The workflow state `ContentState` of `main.py` (the same ten fields as
`AppState` in `streamlit_app.py`).  The six message channels are
`Option`-valued: `none` models a key that is absent from the Python dict and
`some l` a key bound to the list `l` (the agents read them with
`state.get(key, [])`).  The four positioning fields are read with `state[...]`
in the source and are modelled as always present. -/
structure ContentState where
  flagship_messages : Option (List Msg)
  flagship_reflection_messages : Option (List Msg)
  seasonal_event_messages : Option (List Msg)
  seasonal_content_messages : Option (List Msg)
  evergreen_messages : Option (List Msg)
  editing_messages : Option (List Msg)
  core_value_provided : String
  target_audience : String
  persona : String
  monetization : String
deriving DecidableEq

/-- The dict returned by one agent method: a field is `some v` when the
returned dict binds that key to `v`, and `none` when the key is absent.  Every
agent in `main.py` returns a dict with exactly one key. -/
structure StateUpdate where
  flagship_messages : Option (List Msg) := none
  flagship_reflection_messages : Option (List Msg) := none
  seasonal_event_messages : Option (List Msg) := none
  seasonal_content_messages : Option (List Msg) := none
  evergreen_messages : Option (List Msg) := none
  editing_messages : Option (List Msg) := none
  core_value_provided : Option String := none
  target_audience : Option String := none
  persona : Option String := none
  monetization : Option String := none
deriving DecidableEq

/-- Last-value channel merge: a key present in the update overwrites the state,
an absent key leaves the state untouched. -/
def mergeKey {α : Type} (u : Option α) (s : Option α) : Option α :=
  match u with
  | some v => some v
  | none => s

/-- Merging one agent's returned dict into the graph state, as the LangGraph
runtime does after each node (plain last-value channels). -/
def applyUpdate (s : ContentState) (u : StateUpdate) : ContentState where
  flagship_messages := mergeKey u.flagship_messages s.flagship_messages
  flagship_reflection_messages :=
    mergeKey u.flagship_reflection_messages s.flagship_reflection_messages
  seasonal_event_messages := mergeKey u.seasonal_event_messages s.seasonal_event_messages
  seasonal_content_messages := mergeKey u.seasonal_content_messages s.seasonal_content_messages
  evergreen_messages := mergeKey u.evergreen_messages s.evergreen_messages
  editing_messages := mergeKey u.editing_messages s.editing_messages
  core_value_provided := (u.core_value_provided).getD s.core_value_provided
  target_audience := (u.target_audience).getD s.target_audience
  persona := (u.persona).getD s.persona
  monetization := (u.monetization).getD s.monetization

/-- Modelled from the spec: `FLAGSHIP_PROMPT` lives in `prompts.py`, which is
not part of the source snapshot.  Per spec section 4.1 each template
substitutes the four positioning fields into a fixed template string; the
slots are newline-delimited here. -/
def FLAGSHIP_PROMPT_format (core_value_provided target_audience persona monetization : String) :
    String :=
  "Provide a numbered list of 10 flagship content topics." ++ "\n" ++
  "Core value proposition:" ++ "\n" ++ core_value_provided ++ "\n" ++
  "Target audience:" ++ "\n" ++ target_audience ++ "\n" ++
  "Brand persona:" ++ "\n" ++ persona ++ "\n" ++
  "Monetization strategy:" ++ "\n" ++ monetization ++ "\n"

/-- Modelled from the spec: `FLAGSHIP_REFLECTION_PROMPT` lives in `prompts.py`,
which is not part of the source snapshot.  It substitutes the four positioning
fields and the concatenated upstream flagship text. -/
def FLAGSHIP_REFLECTION_PROMPT_format
    (core_value_provided target_audience persona monetization flagship_content : String) :
    String :=
  "Select the top 5 flagship content topics and propose a unique angle for each." ++ "\n" ++
  "Core value proposition:" ++ "\n" ++ core_value_provided ++ "\n" ++
  "Target audience:" ++ "\n" ++ target_audience ++ "\n" ++
  "Brand persona:" ++ "\n" ++ persona ++ "\n" ++
  "Monetization strategy:" ++ "\n" ++ monetization ++ "\n" ++
  "Flagship content topics:" ++ "\n" ++ flagship_content ++ "\n"

/-- Modelled from the spec: `SEASONAL_PROMPT` lives in `prompts.py`, which is
not part of the source snapshot. -/
def SEASONAL_PROMPT_format (core_value_provided target_audience persona monetization : String) :
    String :=
  "Identify holidays and seasonal events." ++ "\n" ++
  "Core value proposition:" ++ "\n" ++ core_value_provided ++ "\n" ++
  "Target audience:" ++ "\n" ++ target_audience ++ "\n" ++
  "Brand persona:" ++ "\n" ++ persona ++ "\n" ++
  "Monetization strategy:" ++ "\n" ++ monetization ++ "\n"

/-- Modelled from the spec: `SEASONAL_CONTENT_PROMPT` lives in `prompts.py`,
which is not part of the source snapshot.  It substitutes the four positioning
fields and the concatenated upstream seasonal-event text. -/
def SEASONAL_CONTENT_PROMPT_format
    (core_value_provided target_audience persona monetization seasonal_events : String) :
    String :=
  "Suggest seasonal content and propose a unique angle for each topic." ++ "\n" ++
  "Core value proposition:" ++ "\n" ++ core_value_provided ++ "\n" ++
  "Target audience:" ++ "\n" ++ target_audience ++ "\n" ++
  "Brand persona:" ++ "\n" ++ persona ++ "\n" ++
  "Monetization strategy:" ++ "\n" ++ monetization ++ "\n" ++
  "Holidays and seasonal events:" ++ "\n" ++ seasonal_events ++ "\n"

/-- Modelled from the spec: `EVERGREEN_PROMPT` lives in `prompts.py`, which is
not part of the source snapshot. -/
def EVERGREEN_PROMPT_format (core_value_provided target_audience persona monetization : String) :
    String :=
  "Suggest evergreen content that is always relevant no matter what year it is." ++ "\n" ++
  "Core value proposition:" ++ "\n" ++ core_value_provided ++ "\n" ++
  "Target audience:" ++ "\n" ++ target_audience ++ "\n" ++
  "Brand persona:" ++ "\n" ++ persona ++ "\n" ++
  "Monetization strategy:" ++ "\n" ++ monetization ++ "\n"

/-- Modelled from the spec: `Edit_PROMPT` lives in `prompts.py`, which is not
part of the source snapshot.  It substitutes the four positioning fields and
the three concatenated upstream texts (flagship reflection, seasonal content,
evergreen), each slot newline-delimited. -/
def Edit_PROMPT_format
    (core_value_provided target_audience persona monetization
      flagship_content seasonal_content evergreen_content : String) : String :=
  "Summarize the content and generate a content report." ++ "\n" ++
  "Core value proposition:" ++ "\n" ++ core_value_provided ++ "\n" ++
  "Target audience:" ++ "\n" ++ target_audience ++ "\n" ++
  "Brand persona:" ++ "\n" ++ persona ++ "\n" ++
  "Monetization strategy:" ++ "\n" ++ monetization ++ "\n" ++
  "Top flagship content analysis:" ++ "\n" ++ flagship_content ++ "\n" ++
  "Seasonal content ideas:" ++ "\n" ++ seasonal_content ++ "\n" ++
  "Evergreen content ideas:" ++ "\n" ++ evergreen_content ++ "\n"

/-- The `"\n".join([msg["content"] for msg in ...])` idiom used by
`flagship_reflection`, `seasonal_content` and `editing` in `main.py`. -/
def joinContents (msgs : List Msg) : String :=
  String.intercalate "\n" (msgs.map Msg.content)

/-- Prompt built by `FlagshipAgent.flagship` (main.py lines 37-42). -/
def flagship_prompt (state : ContentState) : String :=
  FLAGSHIP_PROMPT_format state.core_value_provided state.target_audience
    state.persona state.monetization

/-- Prompt built by `FlagshipReflectionAgent.flagship_reflection`
(main.py lines 55-63), reading the upstream list with `state.get(key, [])`. -/
def flagship_reflection_prompt (state : ContentState) : String :=
  FLAGSHIP_REFLECTION_PROMPT_format state.core_value_provided state.target_audience
    state.persona state.monetization
    (joinContents ((state.flagship_messages).getD []))

/-- Prompt built by `SeasonalEventAgent.seasonal_event` (main.py lines 76-81). -/
def seasonal_event_prompt (state : ContentState) : String :=
  SEASONAL_PROMPT_format state.core_value_provided state.target_audience
    state.persona state.monetization

/-- Prompt built by `SeasonalContentAgent.seasonal_content`
(main.py lines 94-102), reading the upstream list with `state.get(key, [])`. -/
def seasonal_content_prompt (state : ContentState) : String :=
  SEASONAL_CONTENT_PROMPT_format state.core_value_provided state.target_audience
    state.persona state.monetization
    (joinContents ((state.seasonal_event_messages).getD []))

/-- Prompt built by `EvergreenAgent.evergreen` (main.py lines 115-120). -/
def evergreen_prompt (state : ContentState) : String :=
  EVERGREEN_PROMPT_format state.core_value_provided state.target_audience
    state.persona state.monetization

/-- Prompt built by `EditingAgent.editing` (main.py lines 133-145), reading the
three upstream lists with `state.get(key, [])` and joining each with `"\n"`. -/
def editing_prompt (state : ContentState) : String :=
  Edit_PROMPT_format state.core_value_provided state.target_audience
    state.persona state.monetization
    (joinContents ((state.flagship_reflection_messages).getD []))
    (joinContents ((state.seasonal_content_messages).getD []))
    (joinContents ((state.evergreen_messages).getD []))

/-- `FlagshipAgent.flagship`: invoke the model on the flagship prompt and
return a dict binding only `flagship_messages`. -/
def flagship (model : String → String) (state : ContentState) : StateUpdate :=
  { flagship_messages := some [{ role := "assistant", content := model (flagship_prompt state) }] }

/-- `FlagshipReflectionAgent.flagship_reflection`: invoke the model and return
a dict binding only `flagship_reflection_messages`. -/
def flagship_reflection (model : String → String) (state : ContentState) : StateUpdate :=
  { flagship_reflection_messages :=
      some [{ role := "assistant", content := model (flagship_reflection_prompt state) }] }

/-- `SeasonalEventAgent.seasonal_event`: invoke the model and return a dict
binding only `seasonal_event_messages`. -/
def seasonal_event (model : String → String) (state : ContentState) : StateUpdate :=
  { seasonal_event_messages :=
      some [{ role := "assistant", content := model (seasonal_event_prompt state) }] }

/-- `SeasonalContentAgent.seasonal_content`: invoke the model and return a dict
binding only `seasonal_content_messages`. -/
def seasonal_content (model : String → String) (state : ContentState) : StateUpdate :=
  { seasonal_content_messages :=
      some [{ role := "assistant", content := model (seasonal_content_prompt state) }] }

/-- `EvergreenAgent.evergreen`: invoke the model and return a dict binding only
`evergreen_messages`. -/
def evergreen (model : String → String) (state : ContentState) : StateUpdate :=
  { evergreen_messages :=
      some [{ role := "assistant", content := model (evergreen_prompt state) }] }

/-- `EditingAgent.editing`: invoke the model and return a dict binding only
`editing_messages`. -/
def editing (model : String → String) (state : ContentState) : StateUpdate :=
  { editing_messages :=
      some [{ role := "assistant", content := model (editing_prompt state) }] }

/-- Running one node on a state: compute the node's update and merge it in. -/
def stepFlagship (model : String → String) (s : ContentState) : ContentState :=
  applyUpdate s (flagship model s)

/-- Running the `seasonal_event` node on a state. -/
def stepSeasonalEvent (model : String → String) (s : ContentState) : ContentState :=
  applyUpdate s (seasonal_event model s)

/-- Running the `evergreen` node on a state. -/
def stepEvergreen (model : String → String) (s : ContentState) : ContentState :=
  applyUpdate s (evergreen model s)

/-- One complete execution of the compiled graph of `create_graph` (main.py
lines 152-188) in a topological order of its edges: the three independent
generation nodes, then the two refinement nodes, then `editing`. -/
def runGraph (model : String → String) (s0 : ContentState) : ContentState :=
  let s1 := applyUpdate s0 (flagship model s0)
  let s2 := applyUpdate s1 (seasonal_event model s1)
  let s3 := applyUpdate s2 (evergreen model s2)
  let s4 := applyUpdate s3 (flagship_reflection model s3)
  let s5 := applyUpdate s4 (seasonal_content model s4)
  applyUpdate s5 (editing model s5)

/-- The four form fields collected by `create_input_form` in
`streamlit_app.py` (lines 125-130). -/
structure InputData where
  core_value : String
  target_audience : String
  persona : String
  monetization : String
deriving DecidableEq

/-- `create_initial_state` (streamlit_app.py lines 133-146): all six message
keys bound to the empty list, the four positioning fields copied from the
form input. -/
def create_initial_state (input_data : InputData) : ContentState where
  flagship_messages := some []
  flagship_reflection_messages := some []
  seasonal_event_messages := some []
  seasonal_content_messages := some []
  evergreen_messages := some []
  editing_messages := some []
  core_value_provided := input_data.core_value
  target_audience := input_data.target_audience
  persona := input_data.persona
  monetization := input_data.monetization

/-- The nodes of the compiled graph of `create_graph` (main.py lines 166-171),
together with the virtual `START` and `END` vertices. -/
inductive Node where
  | START
  | flagship
  | seasonal_event
  | evergreen
  | flagship_reflection
  | seasonal_content
  | editing
  | END
deriving DecidableEq

/-- The edge list added by `create_graph` (main.py lines 174-186), in source
order. -/
def edges : List (Node × Node) :=
  [(Node.START, Node.flagship),
   (Node.START, Node.seasonal_event),
   (Node.START, Node.evergreen),
   (Node.flagship, Node.flagship_reflection),
   (Node.flagship_reflection, Node.editing),
   (Node.seasonal_event, Node.seasonal_content),
   (Node.seasonal_content, Node.editing),
   (Node.evergreen, Node.editing),
   (Node.editing, Node.END)]

/-- Sources of the edges pointing to a node.  In the compiled graph each
string-form `add_edge` call registers its source as one more independent
trigger of the target node; the list form that would install a wait-for-all
barrier is never used in `create_graph`. -/
def preds (t : Node) : List Node :=
  (edges.filter (fun e => decide (e.2 = t))).map Prod.fst

/-- The six task nodes, in the insertion order of the `add_node` calls
(main.py lines 166-171). -/
def taskNodes : List Node :=
  [Node.flagship, Node.flagship_reflection, Node.seasonal_event,
   Node.seasonal_content, Node.evergreen, Node.editing]

/-- LangGraph (Pregel) scheduling of the compiled graph: a node is scheduled
for the next superstep as soon as ANY of its trigger channels was updated in
the current superstep, i.e. when any one in-edge source just ran.  There is no
wait-for-all barrier between `editing` and its three separately-added
in-edges. -/
def nextActive (A : List Node) : List Node :=
  taskNodes.filter (fun t => (preds t).any (fun p => decide (p ∈ A)))

/-- Dispatch of a scheduled node to its agent method; the virtual `START` and
`END` vertices run nothing. -/
def runNode (model : String → String) (t : Node) (s : ContentState) : StateUpdate :=
  match t with
  | Node.flagship => flagship model s
  | Node.flagship_reflection => flagship_reflection model s
  | Node.seasonal_event => seasonal_event model s
  | Node.seasonal_content => seasonal_content model s
  | Node.evergreen => evergreen model s
  | Node.editing => editing model s
  | Node.START => {}
  | Node.END => {}

/-- One superstep: every scheduled node reads the same snapshot of the state,
and the produced updates are merged at the end of the step (all writers bind
disjoint keys, so the merge order is immaterial). -/
def runSuperstep (model : String → String) (A : List Node) (s : ContentState) : ContentState :=
  A.foldl (fun acc t => applyUpdate acc (runNode model t s)) s

/-- The fuel-bounded Pregel loop: run supersteps until the scheduled set is
empty. -/
def runSupersteps (model : String → String) : Nat → List Node → ContentState → ContentState
  | 0, _, s => s
  | _ + 1, [], s => s
  | k + 1, t :: ts, s =>
      runSupersteps model k (nextActive (t :: ts)) (runSuperstep model (t :: ts) s)

/-- `graph.invoke` on the compiled graph: the entry superstep is the set of
nodes triggered by `START`, and three supersteps empty the schedule. -/
def invokeGraph (model : String → String) (s : ContentState) : ContentState :=
  runSupersteps model 3 (nextActive [Node.START]) s

/-- `FlagshipAgent.flagship` against a fallible model call: `model.invoke` may
raise, modelled as `Except.error`. -/
def flagshipE (model : String → Except String String) (state : ContentState) :
    Except String StateUpdate := do
  let r ← model (flagship_prompt state)
  pure { flagship_messages := some [{ role := "assistant", content := r }] }

/-- `SeasonalEventAgent.seasonal_event` against a fallible model call. -/
def seasonal_eventE (model : String → Except String String) (state : ContentState) :
    Except String StateUpdate := do
  let r ← model (seasonal_event_prompt state)
  pure { seasonal_event_messages := some [{ role := "assistant", content := r }] }

/-- `EvergreenAgent.evergreen` against a fallible model call. -/
def evergreenE (model : String → Except String String) (state : ContentState) :
    Except String StateUpdate := do
  let r ← model (evergreen_prompt state)
  pure { evergreen_messages := some [{ role := "assistant", content := r }] }

/-- `FlagshipReflectionAgent.flagship_reflection` against a fallible model call. -/
def flagship_reflectionE (model : String → Except String String) (state : ContentState) :
    Except String StateUpdate := do
  let r ← model (flagship_reflection_prompt state)
  pure { flagship_reflection_messages := some [{ role := "assistant", content := r }] }

/-- `SeasonalContentAgent.seasonal_content` against a fallible model call. -/
def seasonal_contentE (model : String → Except String String) (state : ContentState) :
    Except String StateUpdate := do
  let r ← model (seasonal_content_prompt state)
  pure { seasonal_content_messages := some [{ role := "assistant", content := r }] }

/-- `EditingAgent.editing` against a fallible model call. -/
def editingE (model : String → Except String String) (state : ContentState) :
    Except String StateUpdate := do
  let r ← model (editing_prompt state)
  pure { editing_messages := some [{ role := "assistant", content := r }] }

/-- `graph.invoke` with a fallible model: the first task whose model call
raises aborts the whole run with that error. -/
def runGraphE (model : String → Except String String) (s0 : ContentState) :
    Except String ContentState := do
  let u1 ← flagshipE model s0
  let s1 := applyUpdate s0 u1
  let u2 ← seasonal_eventE model s1
  let s2 := applyUpdate s1 u2
  let u3 ← evergreenE model s2
  let s3 := applyUpdate s2 u3
  let u4 ← flagship_reflectionE model s3
  let s4 := applyUpdate s3 u4
  let u5 ← seasonal_contentE model s4
  let s5 := applyUpdate s4 u5
  let u6 ← editingE model s5
  pure (applyUpdate s5 u6)

/-- One `if final_state.get(key): append(header); extend(list)` block of
`generate_suggestions` (streamlit_app.py lines 174-202): a missing key
(`none`) and an empty list are both falsy and skip the whole section. -/
def addSection (acc : List Msg) (header : String) (o : Option (List Msg)) : List Msg :=
  if (o.getD []) = [] then acc
  else acc ++ ({ role := "assistant", content := header } : Msg) :: (o.getD [])

/-- The `all_messages` list assembled by `generate_suggestions`
(streamlit_app.py lines 171-204), in source order. -/
def all_messages (final_state : ContentState) : List Msg :=
  addSection (addSection (addSection (addSection (addSection (addSection []
    "## Flagship Content Ideas" final_state.flagship_messages)
    "## Top Flagship Content Analysis" final_state.flagship_reflection_messages)
    "## Seasonal Events" final_state.seasonal_event_messages)
    "## Seasonal Content Ideas" final_state.seasonal_content_messages)
    "## Evergreen Content Ideas" final_state.evergreen_messages)
    "## Content Strategy Summary" final_state.editing_messages

/-- `generate_suggestions` (streamlit_app.py lines 148-208): run the graph on
the initial state built from the form input; on any exception return `None`,
otherwise return the assembled message list. -/
def generate_suggestions (model : String → Except String String) (input_data : InputData) :
    Option (List Msg) :=
  match runGraphE model (create_initial_state input_data) with
  | Except.error _ => none
  | Except.ok final_state => some (all_messages final_state)

/-- `create_input_form` (streamlit_app.py lines 87-131): on submission, if any
of the four fields is empty (falsy), show an error and return `None`;
otherwise return the input record.  Without a submission return `None`. -/
def create_input_form (submit_button : Bool)
    (core_value target_audience persona monetization : String) : Option InputData :=
  if submit_button then
    if core_value ≠ "" ∧ target_audience ≠ "" ∧ persona ≠ "" ∧ monetization ≠ "" then
      some ⟨core_value, target_audience, persona, monetization⟩
    else none
  else none

/-- Whether the `st.error` branch of `create_input_form` (streamlit_app.py
line 122) is reached: submitted with at least one empty field. -/
def form_error_shown (submit_button : Bool)
    (core_value target_audience persona monetization : String) : Bool :=
  submit_button &&
    decide (core_value = "" ∨ target_audience = "" ∨ persona = "" ∨ monetization = "")

/-- The form-to-run wiring of `main` (streamlit_app.py lines 221-223):
`generate_suggestions` runs only when `create_input_form` returned a record. -/
def main_flow (model : String → Except String String) (submit_button : Bool)
    (core_value target_audience persona monetization : String) : Option (List Msg) :=
  match create_input_form submit_button core_value target_audience persona monetization with
  | none => none
  | some input_data => generate_suggestions model input_data

/-- One displayed section: header message followed by the task's messages when
the task's output list is non-empty, and nothing at all otherwise. -/
def sectionOf (header : String) (o : Option (List Msg)) : List Msg :=
  if (o.getD []) = [] then []
  else ({ role := "assistant", content := header } : Msg) :: (o.getD [])

/-- Executable check that the first character list is an initial segment of
the second. -/
def prefB : List Char → List Char → Bool
  | [], _ => true
  | _ :: _, [] => false
  | a :: as, b :: bs => decide (a = b) && prefB as bs

/-- Executable check that the first character list occurs contiguously inside
the second. -/
def subB (n : List Char) : List Char → Bool
  | [] => prefB n []
  | b :: bs => prefB n (b :: bs) || subB n bs

/-- Executable substring check on strings, used to state which markers occur
in a prompt. -/
def strContainsB (needle hay : String) : Bool := subB needle.data hay.data

/-- A concrete run state holding the spec's mock task outputs. -/
def mockRunState : ContentState where
  flagship_messages := some [⟨"assistant", "flagship:A"⟩]
  flagship_reflection_messages := some [⟨"assistant", "flagship_reflection:D"⟩]
  seasonal_event_messages := some [⟨"assistant", "seasonal_event:B"⟩]
  seasonal_content_messages := some [⟨"assistant", "seasonal_content:E"⟩]
  evergreen_messages := some [⟨"assistant", "evergreen:C"⟩]
  editing_messages := some []
  core_value_provided := "core"
  target_audience := "audience"
  persona := "consultant"
  monetization := "subscriptions"

/-- A concrete state with two-element upstream lists, for the C8 witness. -/
def mockPairState : ContentState where
  flagship_messages := some [⟨"assistant", "f1"⟩, ⟨"assistant", "f2"⟩]
  flagship_reflection_messages := some [⟨"assistant", "r1"⟩, ⟨"assistant", "r2"⟩]
  seasonal_event_messages := some [⟨"assistant", "s1"⟩, ⟨"assistant", "s2"⟩]
  seasonal_content_messages := some [⟨"assistant", "c1"⟩, ⟨"assistant", "c2"⟩]
  evergreen_messages := some [⟨"assistant", "e1"⟩, ⟨"assistant", "e2"⟩]
  editing_messages := some []
  core_value_provided := "core"
  target_audience := "audience"
  persona := "consultant"
  monetization := "subscriptions"

/-- A state with all six message keys absent, for the C10 witness. -/
def mockAbsentState : ContentState where
  flagship_messages := none
  flagship_reflection_messages := none
  seasonal_event_messages := none
  seasonal_content_messages := none
  evergreen_messages := none
  editing_messages := none
  core_value_provided := "core"
  target_audience := "audience"
  persona := "consultant"
  monetization := "subscriptions"


lemma joinContents_nil : joinContents [] = "" := rfl

lemma joinContents_singleton (m : Msg) : joinContents [m] = m.content := rfl

lemma joinContents_pair (m n : Msg) : joinContents [m, n] = m.content ++ "\n" ++ n.content := rfl

lemma addSection_eq_append (acc : List Msg) (header : String) (o : Option (List Msg)) :
    addSection acc header o = acc ++ sectionOf header o := by
  by_cases hc : (o.getD []) = [] <;> simp [addSection, sectionOf, hc]

lemma prefB_append_self (n t : List Char) : prefB n (n ++ t) = true := by
  induction n with
  | nil => rfl
  | cons a as ih => simp [prefB, ih]

lemma subB_cons_of (n : List Char) (c : Char) (t : List Char) (h : subB n t = true) :
    subB n (c :: t) = true := by
  simp [subB, h]

lemma subB_append_of_right (n s t : List Char) (h : subB n t = true) :
    subB n (s ++ t) = true := by
  induction s with
  | nil => simpa using h
  | cons a as ih => exact subB_cons_of n a (as ++ t) ih

lemma subB_self_append (n t : List Char) : subB n (n ++ t) = true := by
  cases n with
  | nil =>
    cases t with
    | nil => rfl
    | cons b bs => simp [subB, prefB]
  | cons a as =>
    have h := prefB_append_self (a :: as) t
    simp only [List.cons_append] at h
    simp [subB, h]

lemma prefB_split (a : List Char) :
    ∀ (n b : List Char) (c : Char), c ∉ n → prefB n (a ++ c :: b) = true → prefB n a = true := by
  induction a with
  | nil =>
    intro n b c hc h
    cases n with
    | nil => rfl
    | cons d ds =>
      simp only [List.nil_append, prefB, Bool.and_eq_true, decide_eq_true_eq] at h
      exact absurd (h.1 ▸ List.mem_cons_self d ds) hc
  | cons x xs ih =>
    intro n b c hc h
    cases n with
    | nil => rfl
    | cons d ds =>
      simp only [List.cons_append, prefB, Bool.and_eq_true, decide_eq_true_eq] at h ⊢
      have hc' : c ∉ ds := fun hm => hc (List.mem_cons_of_mem d hm)
      exact ⟨h.1, ih ds b c hc' h.2⟩

lemma subB_split (a : List Char) :
    ∀ (n b : List Char) (c : Char), c ∉ n → subB n (a ++ c :: b) = true →
      subB n a = true ∨ subB n b = true := by
  induction a with
  | nil =>
    intro n b c hc h
    simp only [List.nil_append, subB, Bool.or_eq_true] at h
    rcases h with h | h
    · left
      have hp : prefB n [] = true := prefB_split [] n b c hc h
      cases n with
      | nil => rfl
      | cons d ds => exact absurd hp (by simp [prefB])
    · right; exact h
  | cons x xs ih =>
    intro n b c hc h
    simp only [List.cons_append, subB, Bool.or_eq_true] at h
    rcases h with h | h
    · left
      have hp : prefB n (x :: xs) = true := prefB_split (x :: xs) n b c hc h
      simp [subB, hp]
    · rcases ih n b c hc h with h1 | h1
      · left; exact subB_cons_of n x xs h1
      · right; exact h1

lemma subB_not_append_cons (n a b : List Char) (c : Char) (hc : c ∉ n)
    (ha : subB n a = false) (hb : subB n b = false) : subB n (a ++ c :: b) = false := by
  cases hx : subB n (a ++ c :: b) with
  | false => rfl
  | true =>
    rcases subB_split a n b c hc hx with h1 | h1
    · rw [ha] at h1; exact (Bool.false_ne_true h1).elim
    · rw [hb] at h1; exact (Bool.false_ne_true h1).elim

lemma newline_data : ("\n" : String).data = ['\n'] := rfl

set_option maxRecDepth 4096 in
lemma edit_prompt_data
    (core_value_provided target_audience persona monetization
      flagship_content seasonal_content evergreen_content : String) :
    (Edit_PROMPT_format core_value_provided target_audience persona monetization
        flagship_content seasonal_content evergreen_content).data =
      "Summarize the content and generate a content report.".data ++ '\n' ::
      ("Core value proposition:".data ++ '\n' ::
      (core_value_provided.data ++ '\n' ::
      ("Target audience:".data ++ '\n' ::
      (target_audience.data ++ '\n' ::
      ("Brand persona:".data ++ '\n' ::
      (persona.data ++ '\n' ::
      ("Monetization strategy:".data ++ '\n' ::
      (monetization.data ++ '\n' ::
      ("Top flagship content analysis:".data ++ '\n' ::
      (flagship_content.data ++ '\n' ::
      ("Seasonal content ideas:".data ++ '\n' ::
      (seasonal_content.data ++ '\n' ::
      ("Evergreen content ideas:".data ++ '\n' ::
      (evergreen_content.data ++ '\n' :: [])))))))))))))) := by
  simp only [Edit_PROMPT_format, String.data_append, newline_data, List.append_assoc,
    List.cons_append, List.nil_append, List.singleton_append]

/-- C4: running the three independent generation tasks (flagship,
seasonal_event, evergreen) from the same initial state in any of the six
sequential interleavings yields the same run state, because each task writes
only its own disjoint output key and reads none of the others' keys. -/
theorem C4_generation_order_irrelevant (model : String → String) (s : ContentState) :
    stepEvergreen model (stepSeasonalEvent model (stepFlagship model s)) =
      stepEvergreen model (stepFlagship model (stepSeasonalEvent model s)) ∧
    stepEvergreen model (stepSeasonalEvent model (stepFlagship model s)) =
      stepSeasonalEvent model (stepEvergreen model (stepFlagship model s)) ∧
    stepEvergreen model (stepSeasonalEvent model (stepFlagship model s)) =
      stepSeasonalEvent model (stepFlagship model (stepEvergreen model s)) ∧
    stepEvergreen model (stepSeasonalEvent model (stepFlagship model s)) =
      stepFlagship model (stepEvergreen model (stepSeasonalEvent model s)) ∧
    stepEvergreen model (stepSeasonalEvent model (stepFlagship model s)) =
      stepFlagship model (stepSeasonalEvent model (stepEvergreen model s)) :=
  ⟨rfl, rfl, rfl, rfl, rfl⟩

/-- C7: the four positioning fields are immutable for the run's duration: no
task's returned state update contains any of these keys, and in the final run
state each equals the value supplied in the initial state. -/
theorem C7_positioning_immutable (model : String → String) (s : ContentState) :
    ((flagship model s).core_value_provided = none ∧
      (flagship model s).target_audience = none ∧
      (flagship model s).persona = none ∧
      (flagship model s).monetization = none) ∧
    ((seasonal_event model s).core_value_provided = none ∧
      (seasonal_event model s).target_audience = none ∧
      (seasonal_event model s).persona = none ∧
      (seasonal_event model s).monetization = none) ∧
    ((evergreen model s).core_value_provided = none ∧
      (evergreen model s).target_audience = none ∧
      (evergreen model s).persona = none ∧
      (evergreen model s).monetization = none) ∧
    ((flagship_reflection model s).core_value_provided = none ∧
      (flagship_reflection model s).target_audience = none ∧
      (flagship_reflection model s).persona = none ∧
      (flagship_reflection model s).monetization = none) ∧
    ((seasonal_content model s).core_value_provided = none ∧
      (seasonal_content model s).target_audience = none ∧
      (seasonal_content model s).persona = none ∧
      (seasonal_content model s).monetization = none) ∧
    ((editing model s).core_value_provided = none ∧
      (editing model s).target_audience = none ∧
      (editing model s).persona = none ∧
      (editing model s).monetization = none) ∧
    ((runGraph model s).core_value_provided = s.core_value_provided ∧
      (runGraph model s).target_audience = s.target_audience ∧
      (runGraph model s).persona = s.persona ∧
      (runGraph model s).monetization = s.monetization) :=
  ⟨⟨rfl, rfl, rfl, rfl⟩, ⟨rfl, rfl, rfl, rfl⟩, ⟨rfl, rfl, rfl, rfl⟩,
    ⟨rfl, rfl, rfl, rfl⟩, ⟨rfl, rfl, rfl, rfl⟩, ⟨rfl, rfl, rfl, rfl⟩,
    ⟨rfl, rfl, rfl, rfl⟩⟩

lemma nextActive_start :
    nextActive [Node.START] = [Node.flagship, Node.seasonal_event, Node.evergreen] := rfl

lemma nextActive_generation :
    nextActive [Node.flagship, Node.seasonal_event, Node.evergreen] =
      [Node.flagship_reflection, Node.seasonal_content, Node.editing] := rfl

lemma nextActive_refinement :
    nextActive [Node.flagship_reflection, Node.seasonal_content, Node.editing] =
      [Node.editing] := rfl

/-- The duplicate early `editing` write lands on a plain last-value channel
and is overwritten by the third superstep, so the final state of the real
Pregel execution coincides with the topological-order run `runGraph`. -/
lemma invokeGraph_eq_runGraph (model : String → String) (input_data : InputData) :
    invokeGraph model (create_initial_state input_data) =
      runGraph model (create_initial_state input_data) := rfl

/-- C2: refuted of the code.  The three in-edges of `editing` are registered
by three separate string-form `add_edge` calls, so the compiled graph
schedules `editing` as soon as ANY one source has run: in the second
superstep, triggered by `evergreen` alone, `editing` runs while
`flagship_reflection_messages` and `seasonal_content_messages` are still
empty, invoking the model on a prompt whose two refinement slots are the
empty string (only the evergreen slot is filled); it then runs a second time
in the third superstep.  The spec's property that editing runs only after all
three upstreams have written is violated for every positioning input and
every model. -/
theorem C2_editing_scheduled_early (model : String → String) (input_data : InputData) :
    nextActive [Node.START] = [Node.flagship, Node.seasonal_event, Node.evergreen] ∧
    nextActive [Node.flagship, Node.seasonal_event, Node.evergreen] =
      [Node.flagship_reflection, Node.seasonal_content, Node.editing] ∧
    Node.editing ∈ nextActive [Node.flagship, Node.seasonal_event, Node.evergreen] ∧
    (runSuperstep model [Node.flagship, Node.seasonal_event, Node.evergreen]
        (create_initial_state input_data)).flagship_reflection_messages = some [] ∧
    (runSuperstep model [Node.flagship, Node.seasonal_event, Node.evergreen]
        (create_initial_state input_data)).seasonal_content_messages = some [] ∧
    runNode model Node.editing
        (runSuperstep model [Node.flagship, Node.seasonal_event, Node.evergreen]
          (create_initial_state input_data)) =
      { editing_messages := some [⟨"assistant",
          model (Edit_PROMPT_format input_data.core_value input_data.target_audience
            input_data.persona input_data.monetization "" ""
            (model (EVERGREEN_PROMPT_format input_data.core_value input_data.target_audience
              input_data.persona input_data.monetization)))⟩] } ∧
    nextActive [Node.flagship_reflection, Node.seasonal_content, Node.editing] =
      [Node.editing] :=
  ⟨rfl, rfl, by decide, rfl, rfl, rfl, rfl⟩

/-- C3: for all valid (non-empty) positioning inputs, the final run state
contains exactly six message entries, one per task of the task table, each a
singleton list written by its task from its own model call. -/
theorem C3_final_state_six_entries (model : String → String)
    (core_value target_audience persona monetization : String)
    (h1 : core_value ≠ "") (h2 : target_audience ≠ "")
    (h3 : persona ≠ "") (h4 : monetization ≠ "") :
    (runGraph model (create_initial_state
        ⟨core_value, target_audience, persona, monetization⟩)).flagship_messages =
      some [⟨"assistant", model (FLAGSHIP_PROMPT_format core_value target_audience
        persona monetization)⟩] ∧
    (runGraph model (create_initial_state
        ⟨core_value, target_audience, persona, monetization⟩)).seasonal_event_messages =
      some [⟨"assistant", model (SEASONAL_PROMPT_format core_value target_audience
        persona monetization)⟩] ∧
    (runGraph model (create_initial_state
        ⟨core_value, target_audience, persona, monetization⟩)).evergreen_messages =
      some [⟨"assistant", model (EVERGREEN_PROMPT_format core_value target_audience
        persona monetization)⟩] ∧
    (runGraph model (create_initial_state
        ⟨core_value, target_audience, persona, monetization⟩)).flagship_reflection_messages =
      some [⟨"assistant", model (FLAGSHIP_REFLECTION_PROMPT_format core_value target_audience
        persona monetization
        (model (FLAGSHIP_PROMPT_format core_value target_audience persona monetization)))⟩] ∧
    (runGraph model (create_initial_state
        ⟨core_value, target_audience, persona, monetization⟩)).seasonal_content_messages =
      some [⟨"assistant", model (SEASONAL_CONTENT_PROMPT_format core_value target_audience
        persona monetization
        (model (SEASONAL_PROMPT_format core_value target_audience persona monetization)))⟩] ∧
    (runGraph model (create_initial_state
        ⟨core_value, target_audience, persona, monetization⟩)).editing_messages =
      some [⟨"assistant", model (Edit_PROMPT_format core_value target_audience
        persona monetization
        (model (FLAGSHIP_REFLECTION_PROMPT_format core_value target_audience
          persona monetization
          (model (FLAGSHIP_PROMPT_format core_value target_audience persona monetization))))
        (model (SEASONAL_CONTENT_PROMPT_format core_value target_audience
          persona monetization
          (model (SEASONAL_PROMPT_format core_value target_audience persona monetization))))
        (model (EVERGREEN_PROMPT_format core_value target_audience persona monetization)))⟩] :=
  ⟨rfl, rfl, rfl, rfl, rfl, rfl⟩

/-- Witness for C3 at a concrete input and a constant model. -/
theorem C3_final_state_six_entries_witness :
    ("a" : String) ≠ "" ∧ ("b" : String) ≠ "" ∧ ("c" : String) ≠ "" ∧ ("d" : String) ≠ "" ∧
    ((runGraph (fun _ => "r") (create_initial_state ⟨"a", "b", "c", "d"⟩)).flagship_messages =
        some [⟨"assistant", "r"⟩] ∧
      (runGraph (fun _ => "r")
          (create_initial_state ⟨"a", "b", "c", "d"⟩)).seasonal_event_messages =
        some [⟨"assistant", "r"⟩] ∧
      (runGraph (fun _ => "r") (create_initial_state ⟨"a", "b", "c", "d"⟩)).evergreen_messages =
        some [⟨"assistant", "r"⟩] ∧
      (runGraph (fun _ => "r")
          (create_initial_state ⟨"a", "b", "c", "d"⟩)).flagship_reflection_messages =
        some [⟨"assistant", "r"⟩] ∧
      (runGraph (fun _ => "r")
          (create_initial_state ⟨"a", "b", "c", "d"⟩)).seasonal_content_messages =
        some [⟨"assistant", "r"⟩] ∧
      (runGraph (fun _ => "r") (create_initial_state ⟨"a", "b", "c", "d"⟩)).editing_messages =
        some [⟨"assistant", "r"⟩]) :=
  ⟨by decide, by decide, by decide, by decide,
    C3_final_state_six_entries (fun _ => "r") "a" "b" "c" "d"
      (by decide) (by decide) (by decide) (by decide)⟩

/-- C5: if the underlying model call of any of the six tasks fails (the graph
run raises), the caller receives no result at all: `generate_suggestions`
returns `None` and no partial list of messages. -/
theorem C5_failure_returns_none (model : String → Except String String)
    (input_data : InputData) (e : String)
    (h : runGraphE model (create_initial_state input_data) = Except.error e) :
    generate_suggestions model input_data = none := by
  simp [generate_suggestions, h]

/-- Witness for C5: a model whose very first call raises. -/
theorem C5_failure_returns_none_witness :
    runGraphE (fun _ => Except.error "boom") (create_initial_state ⟨"a", "b", "c", "d"⟩) =
      Except.error "boom" ∧
    generate_suggestions (fun _ => Except.error "boom") ⟨"a", "b", "c", "d"⟩ = none :=
  ⟨rfl, C5_failure_returns_none (fun _ => Except.error "boom") ⟨"a", "b", "c", "d"⟩ "boom" rfl⟩

/-- C6: if any one of the four form fields is empty at submission, the form
handler returns no input record, no task runs (the flow returns `None` for
every model), and the error branch is taken. -/
theorem C6_empty_field_rejected (model : String → Except String String) (submit_button : Bool)
    (core_value target_audience persona monetization : String)
    (h : core_value = "" ∨ target_audience = "" ∨ persona = "" ∨ monetization = "") :
    create_input_form submit_button core_value target_audience persona monetization = none ∧
    main_flow model submit_button core_value target_audience persona monetization = none ∧
    (submit_button = true →
      form_error_shown submit_button core_value target_audience persona monetization = true) := by
  have hform :
      create_input_form submit_button core_value target_audience persona monetization = none := by
    rcases h with h | h | h | h <;> subst h <;> cases submit_button <;>
      simp [create_input_form]
  refine ⟨hform, ?_, ?_⟩
  · rw [main_flow, hform]
  · intro hs
    subst hs
    simp [form_error_shown, h]

/-- Witness for C6: submission with an empty core-value field. -/
theorem C6_empty_field_rejected_witness :
    (("" : String) = "" ∨ ("b" : String) = "" ∨ ("c" : String) = "" ∨ ("d" : String) = "") ∧
    (create_input_form true "" "b" "c" "d" = none ∧
      main_flow (fun _ => Except.ok "r") true "" "b" "c" "d" = none ∧
      (true = true → form_error_shown true "" "b" "c" "d" = true)) :=
  ⟨Or.inl rfl, C6_empty_field_rejected (fun _ => Except.ok "r") true "" "b" "c" "d" (Or.inl rfl)⟩

/-- C9: the message list returned to the presentation layer is the fixed-order
concatenation Flagship, Flagship-Analysis, Seasonal-Events, Seasonal-Content,
Evergreen, Summary, where each section consists of a header message followed
by the task's messages and is present exactly when that task's output list is
non-empty (a missing or empty output list silently drops both the header and
the section). -/
theorem C9_all_messages_sections (final_state : ContentState) :
    all_messages final_state =
      sectionOf "## Flagship Content Ideas" final_state.flagship_messages ++
      sectionOf "## Top Flagship Content Analysis" final_state.flagship_reflection_messages ++
      sectionOf "## Seasonal Events" final_state.seasonal_event_messages ++
      sectionOf "## Seasonal Content Ideas" final_state.seasonal_content_messages ++
      sectionOf "## Evergreen Content Ideas" final_state.evergreen_messages ++
      sectionOf "## Content Strategy Summary" final_state.editing_messages ∧
    (∀ (header : String) (o : Option (List Msg)),
      sectionOf header o = [] ↔ (o.getD []) = []) := by
  constructor
  · simp [all_messages, addSection_eq_append, List.append_assoc]
  · intro header o
    by_cases hc : (o.getD []) = [] <;> simp [sectionOf, hc]

/-- C1: for every run state whose refinement channels hold exactly the mock
texts `flagship_reflection:D`, `seasonal_content:E`, `evergreen:C` and whose
raw generation channels hold exactly `flagship:A` and `seasonal_event:B`, the
prompt built by the editing task contains the three refined texts; and as long
as none of the four substituted positioning fields itself carries the raw
markers, `flagship:A` and `seasonal_event:B` do not occur in the prompt at
all (the included upstream texts contain no occurrence of them either). -/
theorem C1_editing_prompt_sources (s : ContentState) (r1 r2 r3 r4 r5 : String)
    (h1 : s.flagship_reflection_messages = some [⟨r1, "flagship_reflection:D"⟩])
    (h2 : s.seasonal_content_messages = some [⟨r2, "seasonal_content:E"⟩])
    (h3 : s.evergreen_messages = some [⟨r3, "evergreen:C"⟩])
    (h4 : s.flagship_messages = some [⟨r4, "flagship:A"⟩])
    (h5 : s.seasonal_event_messages = some [⟨r5, "seasonal_event:B"⟩])
    (hA1 : strContainsB "flagship:A" s.core_value_provided = false)
    (hA2 : strContainsB "flagship:A" s.target_audience = false)
    (hA3 : strContainsB "flagship:A" s.persona = false)
    (hA4 : strContainsB "flagship:A" s.monetization = false)
    (hB1 : strContainsB "seasonal_event:B" s.core_value_provided = false)
    (hB2 : strContainsB "seasonal_event:B" s.target_audience = false)
    (hB3 : strContainsB "seasonal_event:B" s.persona = false)
    (hB4 : strContainsB "seasonal_event:B" s.monetization = false) :
    strContainsB "flagship_reflection:D" (editing_prompt s) = true ∧
    strContainsB "seasonal_content:E" (editing_prompt s) = true ∧
    strContainsB "evergreen:C" (editing_prompt s) = true ∧
    strContainsB "flagship:A" (editing_prompt s) = false ∧
    strContainsB "seasonal_event:B" (editing_prompt s) = false := by
  have hE : editing_prompt s =
      Edit_PROMPT_format s.core_value_provided s.target_audience s.persona s.monetization
        "flagship_reflection:D" "seasonal_content:E" "evergreen:C" := by
    simp only [editing_prompt]
    rw [h1, h2, h3]
    rfl
  simp only [strContainsB] at hA1 hA2 hA3 hA4 hB1 hB2 hB3 hB4 ⊢
  rw [hE, edit_prompt_data]
  refine ⟨?_, ?_, ?_, ?_, ?_⟩
  · apply subB_append_of_right; apply subB_cons_of
    apply subB_append_of_right; apply subB_cons_of
    apply subB_append_of_right; apply subB_cons_of
    apply subB_append_of_right; apply subB_cons_of
    apply subB_append_of_right; apply subB_cons_of
    apply subB_append_of_right; apply subB_cons_of
    apply subB_append_of_right; apply subB_cons_of
    apply subB_append_of_right; apply subB_cons_of
    apply subB_append_of_right; apply subB_cons_of
    apply subB_append_of_right; apply subB_cons_of
    exact subB_self_append _ _
  · apply subB_append_of_right; apply subB_cons_of
    apply subB_append_of_right; apply subB_cons_of
    apply subB_append_of_right; apply subB_cons_of
    apply subB_append_of_right; apply subB_cons_of
    apply subB_append_of_right; apply subB_cons_of
    apply subB_append_of_right; apply subB_cons_of
    apply subB_append_of_right; apply subB_cons_of
    apply subB_append_of_right; apply subB_cons_of
    apply subB_append_of_right; apply subB_cons_of
    apply subB_append_of_right; apply subB_cons_of
    apply subB_append_of_right; apply subB_cons_of
    apply subB_append_of_right; apply subB_cons_of
    exact subB_self_append _ _
  · apply subB_append_of_right; apply subB_cons_of
    apply subB_append_of_right; apply subB_cons_of
    apply subB_append_of_right; apply subB_cons_of
    apply subB_append_of_right; apply subB_cons_of
    apply subB_append_of_right; apply subB_cons_of
    apply subB_append_of_right; apply subB_cons_of
    apply subB_append_of_right; apply subB_cons_of
    apply subB_append_of_right; apply subB_cons_of
    apply subB_append_of_right; apply subB_cons_of
    apply subB_append_of_right; apply subB_cons_of
    apply subB_append_of_right; apply subB_cons_of
    apply subB_append_of_right; apply subB_cons_of
    apply subB_append_of_right; apply subB_cons_of
    apply subB_append_of_right; apply subB_cons_of
    exact subB_self_append _ _
  · refine subB_not_append_cons _ _ _ _ (by decide) (by decide) ?_
    refine subB_not_append_cons _ _ _ _ (by decide) (by decide) ?_
    refine subB_not_append_cons _ _ _ _ (by decide) hA1 ?_
    refine subB_not_append_cons _ _ _ _ (by decide) (by decide) ?_
    refine subB_not_append_cons _ _ _ _ (by decide) hA2 ?_
    refine subB_not_append_cons _ _ _ _ (by decide) (by decide) ?_
    refine subB_not_append_cons _ _ _ _ (by decide) hA3 ?_
    refine subB_not_append_cons _ _ _ _ (by decide) (by decide) ?_
    refine subB_not_append_cons _ _ _ _ (by decide) hA4 ?_
    refine subB_not_append_cons _ _ _ _ (by decide) (by decide) ?_
    refine subB_not_append_cons _ _ _ _ (by decide) (by decide) ?_
    refine subB_not_append_cons _ _ _ _ (by decide) (by decide) ?_
    refine subB_not_append_cons _ _ _ _ (by decide) (by decide) ?_
    refine subB_not_append_cons _ _ _ _ (by decide) (by decide) ?_
    exact subB_not_append_cons _ _ _ _ (by decide) (by decide) (by decide)
  · refine subB_not_append_cons _ _ _ _ (by decide) (by decide) ?_
    refine subB_not_append_cons _ _ _ _ (by decide) (by decide) ?_
    refine subB_not_append_cons _ _ _ _ (by decide) hB1 ?_
    refine subB_not_append_cons _ _ _ _ (by decide) (by decide) ?_
    refine subB_not_append_cons _ _ _ _ (by decide) hB2 ?_
    refine subB_not_append_cons _ _ _ _ (by decide) (by decide) ?_
    refine subB_not_append_cons _ _ _ _ (by decide) hB3 ?_
    refine subB_not_append_cons _ _ _ _ (by decide) (by decide) ?_
    refine subB_not_append_cons _ _ _ _ (by decide) hB4 ?_
    refine subB_not_append_cons _ _ _ _ (by decide) (by decide) ?_
    refine subB_not_append_cons _ _ _ _ (by decide) (by decide) ?_
    refine subB_not_append_cons _ _ _ _ (by decide) (by decide) ?_
    refine subB_not_append_cons _ _ _ _ (by decide) (by decide) ?_
    refine subB_not_append_cons _ _ _ _ (by decide) (by decide) ?_
    exact subB_not_append_cons _ _ _ _ (by decide) (by decide) (by decide)

/-- Witness for C1 at the concrete mock run state. -/
theorem C1_editing_prompt_sources_witness :
    (mockRunState.flagship_reflection_messages = some [⟨"assistant", "flagship_reflection:D"⟩] ∧
      mockRunState.seasonal_content_messages = some [⟨"assistant", "seasonal_content:E"⟩] ∧
      mockRunState.evergreen_messages = some [⟨"assistant", "evergreen:C"⟩] ∧
      mockRunState.flagship_messages = some [⟨"assistant", "flagship:A"⟩] ∧
      mockRunState.seasonal_event_messages = some [⟨"assistant", "seasonal_event:B"⟩] ∧
      strContainsB "flagship:A" mockRunState.core_value_provided = false ∧
      strContainsB "flagship:A" mockRunState.target_audience = false ∧
      strContainsB "flagship:A" mockRunState.persona = false ∧
      strContainsB "flagship:A" mockRunState.monetization = false ∧
      strContainsB "seasonal_event:B" mockRunState.core_value_provided = false ∧
      strContainsB "seasonal_event:B" mockRunState.target_audience = false ∧
      strContainsB "seasonal_event:B" mockRunState.persona = false ∧
      strContainsB "seasonal_event:B" mockRunState.monetization = false) ∧
    (strContainsB "flagship_reflection:D" (editing_prompt mockRunState) = true ∧
      strContainsB "seasonal_content:E" (editing_prompt mockRunState) = true ∧
      strContainsB "evergreen:C" (editing_prompt mockRunState) = true ∧
      strContainsB "flagship:A" (editing_prompt mockRunState) = false ∧
      strContainsB "seasonal_event:B" (editing_prompt mockRunState) = false) :=
  ⟨⟨rfl, rfl, rfl, rfl, rfl, by decide, by decide, by decide, by decide,
      by decide, by decide, by decide, by decide⟩,
    C1_editing_prompt_sources mockRunState
      "assistant" "assistant" "assistant" "assistant" "assistant"
      rfl rfl rfl rfl rfl
      (by decide) (by decide) (by decide) (by decide)
      (by decide) (by decide) (by decide) (by decide)⟩

/-- C8: every task that references prior outputs (flagship_reflection,
seasonal_content, editing) builds its prompt by joining the content strings of
its upstream task's message list with the separator `"\n"` and substituting
that concatenation, together with the four positioning fields, into its fixed
template; tasks with no upstream substitute only the four positioning
fields.  Stated here for two-element upstream lists so the separator is
explicit. -/
theorem C8_prompt_construction (s : ContentState) (m1 m2 u1 u2 p1 p2 w1 w2 x1 x2 : Msg)
    (hf : s.flagship_messages = some [m1, m2])
    (hse : s.seasonal_event_messages = some [u1, u2])
    (hfr : s.flagship_reflection_messages = some [p1, p2])
    (hsc : s.seasonal_content_messages = some [w1, w2])
    (hev : s.evergreen_messages = some [x1, x2]) :
    flagship_reflection_prompt s =
      FLAGSHIP_REFLECTION_PROMPT_format s.core_value_provided s.target_audience
        s.persona s.monetization (m1.content ++ "\n" ++ m2.content) ∧
    seasonal_content_prompt s =
      SEASONAL_CONTENT_PROMPT_format s.core_value_provided s.target_audience
        s.persona s.monetization (u1.content ++ "\n" ++ u2.content) ∧
    editing_prompt s =
      Edit_PROMPT_format s.core_value_provided s.target_audience s.persona s.monetization
        (p1.content ++ "\n" ++ p2.content) (w1.content ++ "\n" ++ w2.content)
        (x1.content ++ "\n" ++ x2.content) ∧
    flagship_prompt s =
      FLAGSHIP_PROMPT_format s.core_value_provided s.target_audience
        s.persona s.monetization ∧
    seasonal_event_prompt s =
      SEASONAL_PROMPT_format s.core_value_provided s.target_audience
        s.persona s.monetization ∧
    evergreen_prompt s =
      EVERGREEN_PROMPT_format s.core_value_provided s.target_audience
        s.persona s.monetization := by
  refine ⟨?_, ?_, ?_, rfl, rfl, rfl⟩
  · simp only [flagship_reflection_prompt, hf, Option.getD_some, joinContents_pair]
  · simp only [seasonal_content_prompt, hse, Option.getD_some, joinContents_pair]
  · simp only [editing_prompt, hfr, hsc, hev, Option.getD_some, joinContents_pair]

/-- Witness for C8 at the concrete two-element state. -/
theorem C8_prompt_construction_witness :
    (mockPairState.flagship_messages = some [⟨"assistant", "f1"⟩, ⟨"assistant", "f2"⟩] ∧
      mockPairState.seasonal_event_messages = some [⟨"assistant", "s1"⟩, ⟨"assistant", "s2"⟩] ∧
      mockPairState.flagship_reflection_messages =
        some [⟨"assistant", "r1"⟩, ⟨"assistant", "r2"⟩] ∧
      mockPairState.seasonal_content_messages =
        some [⟨"assistant", "c1"⟩, ⟨"assistant", "c2"⟩] ∧
      mockPairState.evergreen_messages = some [⟨"assistant", "e1"⟩, ⟨"assistant", "e2"⟩]) ∧
    (flagship_reflection_prompt mockPairState =
      FLAGSHIP_REFLECTION_PROMPT_format mockPairState.core_value_provided
        mockPairState.target_audience mockPairState.persona mockPairState.monetization
        ((Msg.content ⟨"assistant", "f1"⟩) ++ "\n" ++ (Msg.content ⟨"assistant", "f2"⟩)) ∧
    seasonal_content_prompt mockPairState =
      SEASONAL_CONTENT_PROMPT_format mockPairState.core_value_provided
        mockPairState.target_audience mockPairState.persona mockPairState.monetization
        ((Msg.content ⟨"assistant", "s1"⟩) ++ "\n" ++ (Msg.content ⟨"assistant", "s2"⟩)) ∧
    editing_prompt mockPairState =
      Edit_PROMPT_format mockPairState.core_value_provided mockPairState.target_audience
        mockPairState.persona mockPairState.monetization
        ((Msg.content ⟨"assistant", "r1"⟩) ++ "\n" ++ (Msg.content ⟨"assistant", "r2"⟩))
        ((Msg.content ⟨"assistant", "c1"⟩) ++ "\n" ++ (Msg.content ⟨"assistant", "c2"⟩))
        ((Msg.content ⟨"assistant", "e1"⟩) ++ "\n" ++ (Msg.content ⟨"assistant", "e2"⟩)) ∧
    flagship_prompt mockPairState =
      FLAGSHIP_PROMPT_format mockPairState.core_value_provided mockPairState.target_audience
        mockPairState.persona mockPairState.monetization ∧
    seasonal_event_prompt mockPairState =
      SEASONAL_PROMPT_format mockPairState.core_value_provided mockPairState.target_audience
        mockPairState.persona mockPairState.monetization ∧
    evergreen_prompt mockPairState =
      EVERGREEN_PROMPT_format mockPairState.core_value_provided mockPairState.target_audience
        mockPairState.persona mockPairState.monetization) :=
  ⟨⟨rfl, rfl, rfl, rfl, rfl⟩,
    C8_prompt_construction mockPairState
      ⟨"assistant", "f1"⟩ ⟨"assistant", "f2"⟩ ⟨"assistant", "s1"⟩ ⟨"assistant", "s2"⟩
      ⟨"assistant", "r1"⟩ ⟨"assistant", "r2"⟩ ⟨"assistant", "c1"⟩ ⟨"assistant", "c2"⟩
      ⟨"assistant", "e1"⟩ ⟨"assistant", "e2"⟩
      rfl rfl rfl rfl rfl⟩

/-- C10: each downstream task reads its upstream output with a defaulting
lookup (`state.get(key, [])`), so when an upstream message list is missing
(`none`) or empty the task does not fail: it substitutes the empty string as
the concatenated upstream text and still produces its single-key update from
the model call. -/
theorem C10_missing_upstream_defaults (model : String → String) (s : ContentState)
    (h1 : s.flagship_messages = none ∨ s.flagship_messages = some [])
    (h2 : s.seasonal_event_messages = none ∨ s.seasonal_event_messages = some [])
    (h3 : s.flagship_reflection_messages = none ∨ s.flagship_reflection_messages = some [])
    (h4 : s.seasonal_content_messages = none ∨ s.seasonal_content_messages = some [])
    (h5 : s.evergreen_messages = none ∨ s.evergreen_messages = some []) :
    flagship_reflection_prompt s =
      FLAGSHIP_REFLECTION_PROMPT_format s.core_value_provided s.target_audience
        s.persona s.monetization "" ∧
    flagship_reflection model s =
      { flagship_reflection_messages := some [⟨"assistant",
          model (FLAGSHIP_REFLECTION_PROMPT_format s.core_value_provided s.target_audience
            s.persona s.monetization "")⟩] } ∧
    seasonal_content_prompt s =
      SEASONAL_CONTENT_PROMPT_format s.core_value_provided s.target_audience
        s.persona s.monetization "" ∧
    seasonal_content model s =
      { seasonal_content_messages := some [⟨"assistant",
          model (SEASONAL_CONTENT_PROMPT_format s.core_value_provided s.target_audience
            s.persona s.monetization "")⟩] } ∧
    editing_prompt s =
      Edit_PROMPT_format s.core_value_provided s.target_audience
        s.persona s.monetization "" "" "" ∧
    editing model s =
      { editing_messages := some [⟨"assistant",
          model (Edit_PROMPT_format s.core_value_provided s.target_audience
            s.persona s.monetization "" "" "")⟩] } := by
  have hfp : flagship_reflection_prompt s =
      FLAGSHIP_REFLECTION_PROMPT_format s.core_value_provided s.target_audience
        s.persona s.monetization "" := by
    rcases h1 with h | h <;>
      simp only [flagship_reflection_prompt, h, Option.getD_some, Option.getD_none,
        joinContents_nil]
  have hsp : seasonal_content_prompt s =
      SEASONAL_CONTENT_PROMPT_format s.core_value_provided s.target_audience
        s.persona s.monetization "" := by
    rcases h2 with h | h <;>
      simp only [seasonal_content_prompt, h, Option.getD_some, Option.getD_none,
        joinContents_nil]
  have hep : editing_prompt s =
      Edit_PROMPT_format s.core_value_provided s.target_audience
        s.persona s.monetization "" "" "" := by
    rcases h3 with h3 | h3 <;> rcases h4 with h4 | h4 <;> rcases h5 with h5 | h5 <;>
      simp only [editing_prompt, h3, h4, h5, Option.getD_some, Option.getD_none,
        joinContents_nil]
  exact ⟨hfp, by simp only [flagship_reflection, hfp], hsp,
    by simp only [seasonal_content, hsp], hep, by simp only [editing, hep]⟩

/-- Witness for C10 at the all-absent state and a constant model. -/
theorem C10_missing_upstream_defaults_witness :
    (mockAbsentState.flagship_messages = none ∨ mockAbsentState.flagship_messages = some []) ∧
    ((flagship_reflection_prompt mockAbsentState =
        FLAGSHIP_REFLECTION_PROMPT_format mockAbsentState.core_value_provided
          mockAbsentState.target_audience mockAbsentState.persona
          mockAbsentState.monetization "") ∧
      flagship_reflection (fun _ => "r") mockAbsentState =
        { flagship_reflection_messages := some [⟨"assistant", "r"⟩] } ∧
      seasonal_content_prompt mockAbsentState =
        SEASONAL_CONTENT_PROMPT_format mockAbsentState.core_value_provided
          mockAbsentState.target_audience mockAbsentState.persona
          mockAbsentState.monetization "" ∧
      seasonal_content (fun _ => "r") mockAbsentState =
        { seasonal_content_messages := some [⟨"assistant", "r"⟩] } ∧
      editing_prompt mockAbsentState =
        Edit_PROMPT_format mockAbsentState.core_value_provided
          mockAbsentState.target_audience mockAbsentState.persona
          mockAbsentState.monetization "" "" "" ∧
      editing (fun _ => "r") mockAbsentState =
        { editing_messages := some [⟨"assistant", "r"⟩] }) :=
  ⟨Or.inl rfl,
    C10_missing_upstream_defaults (fun _ => "r") mockAbsentState
      (Or.inl rfl) (Or.inl rfl) (Or.inl rfl) (Or.inl rfl) (Or.inl rfl)⟩

end StaticContent
